import Mathlib

/-!
Verification of the Vio repository's chunk scripts.

Each of the four files `src/temp/videos/chunks/chunk_N/chunk_N.py` defines a
manim `Scene` subclass `VideoScene` whose `construct` method is a straight-line
sequence: build two `Text` mobjects (a title and a body), scale the body to fit
width 11, then `play(Write(title), run_time=1.5)`, `wait(0.5)`,
`play(Transform(title, content), run_time=1)`, `wait(2)`,
`play(FadeOut(title), run_time=0.5)`.

We embed each `construct` body shallowly as the list of framework calls it
issues (`Event`), together with a small scene-state semantics (`applyEvent`)
modelling what the manim calls do to the mobjects and the set of objects on
screen, and a per-line small-step relation (`Step`) for the determinism and
termination claims.  Text rendering widths are external to the scripts, so the
semantics is parameterized by a measure `env : String → ℕ → ℚ` giving the
intrinsic width of a rendered text for a given string and font size.
-/

namespace Vio

/-- The manim color constants used by the chunk files. -/
inductive Color where
  | BLUE
  | WHITE
  deriving DecidableEq, Repr

/-- References to the two local mobject variables of `construct`:
`title` and `content`. -/
inductive MRef where
  | title
  | content
  deriving DecidableEq, Repr

/-- A text mobject: the string, the `font_size` and `color` keyword arguments,
and its current rendered width. -/
structure TextObj where
  text : String
  font_size : ℕ
  color : Color
  width : ℚ
  deriving DecidableEq, Repr

/-- The manim animations appearing in the chunk files.  `Transform r d` morphs
the mobject `r` into the shape of mobject `d` (the target keeps being the
displayed object; `d` is only the destination shape). -/
inductive Anim where
  | Write (target : MRef)
  | Transform (target : MRef) (dest : MRef)
  | FadeOut (target : MRef)
  deriving DecidableEq, Repr

/-- One framework call issued by a `construct` body: constructing a `Text`
(recording which variable it is bound to and its literal arguments), a
`scale_to_fit_width` call, a `self.play` with its `run_time`, or a
`self.wait`. -/
inductive Event where
  | mkText (r : MRef) (text : String) (font_size : ℕ) (color : Color)
  | scale_to_fit_width (r : MRef) (w : ℚ)
  | play (a : Anim) (run_time : ℚ)
  | wait (duration : ℚ)
  deriving DecidableEq, Repr

/-- The scene state: the two mobject variables (unset before their `Text`
constructor runs) and the list of mobjects currently on screen. -/
structure SceneState where
  titleObj : Option TextObj
  contentObj : Option TextObj
  onScreen : List MRef
  deriving DecidableEq, Repr

/-- Read a mobject variable. -/
def getObj (s : SceneState) : MRef → Option TextObj
  | .title => s.titleObj
  | .content => s.contentObj

/-- Write a mobject variable. -/
def setObj (s : SceneState) (r : MRef) (o : Option TextObj) : SceneState :=
  match r with
  | .title => { s with titleObj := o }
  | .content => { s with contentObj := o }

/-- Effect of one framework call on the scene state. `env` measures the
intrinsic rendered width of a text.  `Text(...)` binds the variable to a fresh
mobject; `scale_to_fit_width w` rescales the mobject so its width becomes `w`;
`Write` puts its target on screen; `Transform r d` replaces the appearance of
the displayed target `r` by that of `d`; `FadeOut` removes its target from the
screen; `wait` changes nothing. -/
def applyEvent (env : String → ℕ → ℚ) (s : SceneState) : Event → SceneState
  | .mkText r t fs c => setObj s r (some ⟨t, fs, c, env t fs⟩)
  | .scale_to_fit_width r w =>
      setObj s r ((getObj s r).map fun o => { o with width := w })
  | .play (.Write r) _ =>
      { s with onScreen := if r ∈ s.onScreen then s.onScreen else r :: s.onScreen }
  | .play (.Transform r d) _ => setObj s r (getObj s d)
  | .play (.FadeOut r) _ => { s with onScreen := s.onScreen.erase r }
  | .wait _ => s

/-- Run a list of framework calls from a scene state. -/
def runEvents (env : String → ℕ → ℚ) (s : SceneState) (evs : List Event) :
    SceneState :=
  evs.foldl (applyEvent env) s

/-- The scene state after the first `k` calls of a trace. -/
def stateAt (env : String → ℕ → ℚ) (s : SceneState) (evs : List Event)
    (k : ℕ) : SceneState :=
  runEvents env s (evs.take k)

/-- The calls issued by `VideoScene.construct` of
`src/temp/videos/chunks/chunk_8/chunk_8.py`, in program order. -/
def chunk8_events : List Event :=
  [ .mkText .title "Machine Learning Models" 40 .BLUE,
    .mkText .content "Machine learning models are like the brain of the child. They learn from data and make predictions. ..." 24 .WHITE,
    .scale_to_fit_width .content 11,
    .play (.Write .title) (3/2),
    .wait (1/2),
    .play (.Transform .title .content) 1,
    .wait 2,
    .play (.FadeOut .title) (1/2) ]

/-- The calls issued by `VideoScene.construct` of
`src/temp/videos/chunks/chunk_9/chunk_9.py`, in program order. -/
def chunk9_events : List Event :=
  [ .mkText .title "Real-World Applications" 40 .BLUE,
    .mkText .content "Machine learning is used in many real-world applications, such as image recognition, natural languag..." 24 .WHITE,
    .scale_to_fit_width .content 11,
    .play (.Write .title) (3/2),
    .wait (1/2),
    .play (.Transform .title .content) 1,
    .wait 2,
    .play (.FadeOut .title) (1/2) ]

/-- The calls issued by `VideoScene.construct` of
`src/temp/videos/chunks/chunk_10/chunk_10.py`, in program order. -/
def chunk10_events : List Event :=
  [ .mkText .title "Conclusion" 40 .BLUE,
    .mkText .content "In conclusion, machine learning is a powerful tool that can learn from data and make predictions. It..." 24 .WHITE,
    .scale_to_fit_width .content 11,
    .play (.Write .title) (3/2),
    .wait (1/2),
    .play (.Transform .title .content) 1,
    .wait 2,
    .play (.FadeOut .title) (1/2) ]

/-- The calls issued by `VideoScene.construct` of
`src/temp/videos/chunks/chunk_11/chunk_11.py`, in program order. -/
def chunk11_events : List Event :=
  [ .mkText .title "What is Machine Learning?" 40 .BLUE,
    .mkText .content "Imagine you\x27re trying to teach a child to recognize different animals. You show them pictures of cat..." 24 .WHITE,
    .scale_to_fit_width .content 11,
    .play (.Write .title) (3/2),
    .wait (1/2),
    .play (.Transform .title .content) 1,
    .wait 2,
    .play (.FadeOut .title) (1/2) ]

/-- The four chunk files of the repository. -/
inductive Chunk where
  | c8
  | c9
  | c10
  | c11
  deriving DecidableEq, Repr

/-- The trace of framework calls of each chunk's `construct`. -/
def chunkEvents : Chunk → List Event
  | .c8 => chunk8_events
  | .c9 => chunk9_events
  | .c10 => chunk10_events
  | .c11 => chunk11_events

/-- The per-file parameters of the repeated template: the literal arguments of
the two `Text` constructors, the fit width, and the five timing literals. -/
structure ChunkParams where
  titleText : String
  titleFontSize : ℕ
  titleColor : Color
  bodyText : String
  bodyFontSize : ℕ
  bodyColor : Color
  fitWidth : ℚ
  writeTime : ℚ
  holdTime1 : ℚ
  transformTime : ℚ
  holdTime2 : ℚ
  fadeTime : ℚ
  deriving DecidableEq, Repr

/-- The common template shared by the four chunk files, as a function of the
per-file parameters: the `construct` body issues exactly these eight calls. -/
def constructEvents (p : ChunkParams) : List Event :=
  [ .mkText .title p.titleText p.titleFontSize p.titleColor,
    .mkText .content p.bodyText p.bodyFontSize p.bodyColor,
    .scale_to_fit_width .content p.fitWidth,
    .play (.Write .title) p.writeTime,
    .wait p.holdTime1,
    .play (.Transform .title .content) p.transformTime,
    .wait p.holdTime2,
    .play (.FadeOut .title) p.fadeTime ]

/-- The literal parameters of each chunk file, read off its source. -/
def chunkParams : Chunk → ChunkParams
  | .c8 =>
    { titleText := "Machine Learning Models"
      titleFontSize := 40
      titleColor := .BLUE
      bodyText := "Machine learning models are like the brain of the child. They learn from data and make predictions. ..."
      bodyFontSize := 24
      bodyColor := .WHITE
      fitWidth := 11
      writeTime := 3/2
      holdTime1 := 1/2
      transformTime := 1
      holdTime2 := 2
      fadeTime := 1/2 }
  | .c9 =>
    { titleText := "Real-World Applications"
      titleFontSize := 40
      titleColor := .BLUE
      bodyText := "Machine learning is used in many real-world applications, such as image recognition, natural languag..."
      bodyFontSize := 24
      bodyColor := .WHITE
      fitWidth := 11
      writeTime := 3/2
      holdTime1 := 1/2
      transformTime := 1
      holdTime2 := 2
      fadeTime := 1/2 }
  | .c10 =>
    { titleText := "Conclusion"
      titleFontSize := 40
      titleColor := .BLUE
      bodyText := "In conclusion, machine learning is a powerful tool that can learn from data and make predictions. It..."
      bodyFontSize := 24
      bodyColor := .WHITE
      fitWidth := 11
      writeTime := 3/2
      holdTime1 := 1/2
      transformTime := 1
      holdTime2 := 2
      fadeTime := 1/2 }
  | .c11 =>
    { titleText := "What is Machine Learning?"
      titleFontSize := 40
      titleColor := .BLUE
      bodyText := "Imagine you\x27re trying to teach a child to recognize different animals. You show them pictures of cat..."
      bodyFontSize := 24
      bodyColor := .WHITE
      fitWidth := 11
      writeTime := 3/2
      holdTime1 := 1/2
      transformTime := 1
      holdTime2 := 2
      fadeTime := 1/2 }

/-- An event with its string argument erased: the shape of a call (its kind,
its mobject arguments, and its numeric parameters). -/
inductive EventShape where
  | mkText (r : MRef) (font_size : ℕ) (color : Color)
  | scale_to_fit_width (r : MRef) (w : ℚ)
  | play (a : Anim) (run_time : ℚ)
  | wait (duration : ℚ)
  deriving DecidableEq, Repr

/-- Erase the string argument of a call. -/
def Event.shape : Event → EventShape
  | .mkText r _ fs c => .mkText r fs c
  | .scale_to_fit_width r w => .scale_to_fit_width r w
  | .play a t => .play a t
  | .wait d => .wait d

/-- The string literals passed to `Text` constructors in a trace. -/
def stringLits (evs : List Event) : List String :=
  evs.filterMap fun e =>
    match e with
    | .mkText _ t _ _ => some t
    | _ => none

/-- The color literals passed to `Text` constructors in a trace. -/
def colorLits (evs : List Event) : List Color :=
  evs.filterMap fun e =>
    match e with
    | .mkText _ _ _ c => some c
    | _ => none

/-- The `font_size` literals passed to `Text` constructors in a trace. -/
def fontSizeLits (evs : List Event) : List ℕ :=
  evs.filterMap fun e =>
    match e with
    | .mkText _ _ fs _ => some fs
    | _ => none

/-- The width literals passed to `scale_to_fit_width` calls in a trace. -/
def widthLits (evs : List Event) : List ℚ :=
  evs.filterMap fun e =>
    match e with
    | .scale_to_fit_width _ w => some w
    | _ => none

/-- The duration literals of a trace: the `run_time` of each `play` and the
argument of each `wait`, in program order. -/
def durationLits (evs : List Event) : List ℚ :=
  evs.filterMap fun e =>
    match e with
    | .play _ t => some t
    | .wait d => some d
    | _ => none

/-- The scripted time contributed by one call: the `run_time` of a `play`, the
duration of a `wait`, and zero for the non-animating calls. -/
def Event.scriptedTime : Event → ℚ
  | .play _ t => t
  | .wait d => d
  | _ => 0

/-- The total scripted duration of a trace. -/
def scriptedDuration (evs : List Event) : ℚ :=
  (evs.map Event.scriptedTime).sum

/-- Whether a call is issued to the scene (a `play` or a `wait`), as opposed
to constructing or rescaling a mobject. -/
def Event.isSceneCall : Event → Bool
  | .play _ _ => true
  | .wait _ => true
  | _ => false

/-- The mobject targeted by an animation (the object the animation is applied
to; for `Transform` this is the object being morphed, not the destination
shape). -/
def Anim.target : Anim → MRef
  | .Write r => r
  | .Transform r _ => r
  | .FadeOut r => r

/-- The target of a `play` call, `none` for the other calls. -/
def Event.playTarget : Event → Option MRef
  | .play a _ => some a.target
  | _ => none

/-- The template has eight lines issuing calls. -/
theorem constructEvents_length (p : ChunkParams) : (constructEvents p).length = 8 :=
  rfl

/-- The call issued by line `i` of the template's `construct` body. -/
def lineEvent (p : ChunkParams) (i : Fin 8) : Event :=
  (constructEvents p).get (Fin.cast rfl i)

/-- A configuration of a running `construct`: the program counter (which of
the eight lines runs next), the scene state, and the calls issued so far. -/
structure Config where
  pc : ℕ
  st : SceneState
  trace : List Event
  deriving DecidableEq, Repr

/-- Small-step execution of the template's `construct` body: when the program
counter is at line `i < 8`, execute that line's call on the scene state,
append it to the trace, and advance the counter.  No step exists from
`pc = 8`: the method returns. -/
inductive Step (env : String → ℕ → ℚ) (p : ChunkParams) : Config → Config → Prop
  | emit (i : ℕ) (h : i < 8) (s : SceneState) (tr : List Event) :
      Step env p ⟨i, s, tr⟩
        ⟨i + 1, applyEvent env s (lineEvent p ⟨i, h⟩), tr ++ [lineEvent p ⟨i, h⟩]⟩

/-- Zero or more steps of `construct`. -/
def Steps (env : String → ℕ → ℚ) (p : ChunkParams) : Config → Config → Prop :=
  Relation.ReflTransGen (Step env p)

/-- A configuration from which no step is possible. -/
def Halted (env : String → ℕ → ℚ) (p : ChunkParams) (c : Config) : Prop :=
  ∀ d, ¬ Step env p c d

/-- The starting configuration of `construct` on a scene state. -/
def initConfig (s : SceneState) : Config :=
  ⟨0, s, []⟩

/-- The configuration in which `construct` started from `s` returns. -/
def finalConfig (env : String → ℕ → ℚ) (p : ChunkParams) (s : SceneState) :
    Config :=
  ⟨8, runEvents env s (constructEvents p), constructEvents p⟩

/-- At most one step is possible from any configuration. -/
theorem step_det {env : String → ℕ → ℚ} {p : ChunkParams} {c d d' : Config}
    (h1 : Step env p c d) (h2 : Step env p c d') : d = d' := by
  cases h1 with
  | emit i h s tr =>
    cases h2 with
    | emit => rfl

/-- After line eight, `construct` has returned: no further step. -/
theorem halted_final (env : String → ℕ → ℚ) (p : ChunkParams)
    (st : SceneState) (tr : List Event) : Halted env p ⟨8, st, tr⟩ := by
  intro d h
  cases h with
  | emit i hlt s tr' => exact absurd hlt (by norm_num)

/-- From any scene state, `construct` steps through its eight lines to the
final configuration. -/
theorem construct_runs (env : String → ℕ → ℚ) (p : ChunkParams)
    (s : SceneState) : Steps env p (initConfig s) (finalConfig env p s) := by
  refine .head (Step.emit 0 (by norm_num) s []) ?_
  refine .head (Step.emit 1 (by norm_num) _ _) ?_
  refine .head (Step.emit 2 (by norm_num) _ _) ?_
  refine .head (Step.emit 3 (by norm_num) _ _) ?_
  refine .head (Step.emit 4 (by norm_num) _ _) ?_
  refine .head (Step.emit 5 (by norm_num) _ _) ?_
  refine .head (Step.emit 6 (by norm_num) _ _) ?_
  refine .head (Step.emit 7 (by norm_num) _ _) ?_
  exact .refl

/-- A deterministic straight-line run has a unique halted endpoint. -/
theorem halted_unique {env : String → ℕ → ℚ} {p : ChunkParams}
    {c a b : Config} (h1 : Steps env p c a) (ha : Halted env p a)
    (h2 : Steps env p c b) (hb : Halted env p b) : a = b := by
  revert h2
  induction h1 using Relation.ReflTransGen.head_induction_on with
  | refl =>
    intro h2
    rcases Relation.ReflTransGen.cases_head h2 with h | ⟨m, hm, _⟩
    · exact h
    · exact absurd hm (ha m)
  | head hstep hrest ih =>
    intro h2
    rcases Relation.ReflTransGen.cases_head h2 with h | ⟨m, hm, h2'⟩
    · subst h
      exact absurd hstep (hb _)
    · have hmeq := step_det hstep hm
      subst hmeq
      exact ih h2'

/-- The literal inventory asserted by the spec (claim C4): exactly a title
string and a body string, one color literal, one font-size literal, no other
baked-in width value, and a set of four duration literals
`{1.5, 0.5, 1.0, 2.0}`.  This follows the spec's words; it is compared with
the inventory actually extracted from the source traces. -/
def specLiteralInventory (evs : List Event) : Prop :=
  (stringLits evs).length = 2 ∧
    (colorLits evs).length = 1 ∧
    (fontSizeLits evs).length = 1 ∧
    widthLits evs = [] ∧
    (durationLits evs).toFinset = ({3/2, 1/2, 1, 2} : Finset ℚ)

/-- C1: each chunk's `construct` issues exactly this unconditional sequence:
build the title text and the body text from literal strings, scale the body to
width 11, then `play (Write title)` with `run_time` 1.5, `wait 0.5`,
`play (Transform title content)` with `run_time` 1, `wait 2`, and
`play (FadeOut title)` with `run_time` 0.5 — in that order, with no other
framework calls. -/
theorem construct_sequence_exact (c : Chunk) :
    chunkEvents c =
      [ .mkText .title (chunkParams c).titleText 40 .BLUE,
        .mkText .content (chunkParams c).bodyText 24 .WHITE,
        .scale_to_fit_width .content 11,
        .play (.Write .title) (3/2),
        .wait (1/2),
        .play (.Transform .title .content) 1,
        .wait 2,
        .play (.FadeOut .title) (1/2) ] := by
  cases c <;> rfl

/-- C2: for every chunk, the sum of all scripted `run_time` and `wait`
durations issued by `construct` is exactly 1.5 + 0.5 + 1 + 2 + 0.5 = 5.5
seconds, in exact rational arithmetic. -/
theorem scripted_duration_eq (c : Chunk) :
    scriptedDuration (chunkEvents c) = 3/2 + 1/2 + 1 + 2 + 1/2 ∧
      (3/2 + 1/2 + 1 + 2 + 1/2 : ℚ) = 11/2 := by
  cases c <;>
    exact ⟨by norm_num [scriptedDuration, chunkEvents, chunk8_events,
      chunk9_events, chunk10_events, chunk11_events, Event.scriptedTime],
      by norm_num⟩

/-- C3: in every chunk, the body text is scaled to the configured width 11 by
the third call, before any `play` or `wait` is issued (the first three calls
are object construction and scaling, the remaining five are the scene calls);
from the moment the scaling has run, the body mobject's width equals the fit
width 11 (hence does not exceed it), and from the `Transform` onwards the
displayed mobject carries the body's appearance with that same width 11. -/
theorem body_scaled_before_shown (c : Chunk) (env : String → ℕ → ℚ)
    (s : SceneState) :
    (((chunkEvents c).take 3).all (fun e => !e.isSceneCall)) = true ∧
      (chunkEvents c)[2]? = some (.scale_to_fit_width .content 11) ∧
      (((chunkEvents c).drop 3).all Event.isSceneCall) = true ∧
      (∀ k : Fin 6,
        ((stateAt env s (chunkEvents c) (k.val + 3)).contentObj).map
            TextObj.width = some 11) ∧
      (∀ k : Fin 3,
        ((stateAt env s (chunkEvents c) (k.val + 6)).titleObj).map
            TextObj.width = some 11) := by
  cases c <;>
    exact ⟨rfl, rfl, rfl, by intro k; fin_cases k <;> rfl,
      by intro k; fin_cases k <;> rfl⟩

/-- C4 as the spec states it is false on chunk 8: the file bakes in two color
literals (BLUE and WHITE), two font sizes (40 and 24) and a width literal 11,
not one color, one font size and no width. -/
theorem literal_inventory_spec_refuted :
    ¬ specLiteralInventory (chunkEvents Chunk.c8) :=
  fun h => absurd h.2.1 (by decide)

/-- C4 (amended): the only values baked into each chunk file are the title
string and the body string, the two color literals BLUE (title) and WHITE
(body), the two font sizes 40 (title) and 24 (body), the fit-width literal 11,
and the duration literals 1.5, 0.5, 1, 2, 0.5 in program order. -/
theorem literal_inventory_exact (c : Chunk) :
    stringLits (chunkEvents c) =
        [(chunkParams c).titleText, (chunkParams c).bodyText] ∧
      colorLits (chunkEvents c) = [.BLUE, .WHITE] ∧
      fontSizeLits (chunkEvents c) = [40, 24] ∧
      widthLits (chunkEvents c) = [11] ∧
      durationLits (chunkEvents c) = [3/2, 1/2, 1, 2, 1/2] := by
  cases c <;> exact ⟨rfl, rfl, rfl, rfl, rfl⟩

/-- C5: any two chunks issue call sequences of identical shape (same kinds of
calls, same order, same mobject arguments and same numeric parameters, only
the string literals erased), and every chunk's trace is exactly the common
template instantiated at the chunk's literal parameters. -/
theorem template_instances_identical :
    (∀ c cc : Chunk,
        (chunkEvents c).map Event.shape = (chunkEvents cc).map Event.shape) ∧
      ∀ c : Chunk, chunkEvents c = constructEvents (chunkParams c) := by
  constructor
  · intro c cc
    cases c <;> cases cc <;> rfl
  · intro c
    cases c <;> rfl

/-- C6: in every chunk, the title string and the body string passed to the two
`Text` constructors are non-empty. -/
theorem title_body_nonempty (c : Chunk) :
    0 < ((chunkParams c).titleText).length ∧
      0 < ((chunkParams c).bodyText).length ∧
      stringLits (chunkEvents c) =
        [(chunkParams c).titleText, (chunkParams c).bodyText] := by
  cases c <;> exact ⟨by decide, by decide, rfl⟩

/-- C7: `construct` is deterministic: any two complete runs (maximal step
sequences of the small-step semantics) started from equal configurations issue
identical call traces and end in equal scene states. -/
theorem construct_deterministic (env : String → ℕ → ℚ) (p : ChunkParams)
    (c1 c2 d1 d2 : Config) (hc : c1 = c2) (r1 : Steps env p c1 d1)
    (h1 : Halted env p d1) (r2 : Steps env p c2 d2)
    (h2 : Halted env p d2) : d1.trace = d2.trace ∧ d1.st = d2.st := by
  subst hc
  have h := halted_unique r1 h1 r2 h2
  rw [h]
  exact ⟨rfl, rfl⟩

/-- Witness for C7: two runs of chunk 8's `construct` from the fresh scene
state reach the same trace and state. -/
theorem construct_deterministic_witness :
    (finalConfig (fun _ _ => 0) (chunkParams Chunk.c8) ⟨none, none, []⟩).trace =
        (finalConfig (fun _ _ => 0) (chunkParams Chunk.c8)
          ⟨none, none, []⟩).trace ∧
      (finalConfig (fun _ _ => 0) (chunkParams Chunk.c8) ⟨none, none, []⟩).st =
        (finalConfig (fun _ _ => 0) (chunkParams Chunk.c8)
          ⟨none, none, []⟩).st :=
  construct_deterministic (fun _ _ => 0) (chunkParams Chunk.c8)
    (initConfig ⟨none, none, []⟩) (initConfig ⟨none, none, []⟩)
    (finalConfig (fun _ _ => 0) (chunkParams Chunk.c8) ⟨none, none, []⟩)
    (finalConfig (fun _ _ => 0) (chunkParams Chunk.c8) ⟨none, none, []⟩)
    rfl
    (construct_runs (fun _ _ => 0) (chunkParams Chunk.c8) ⟨none, none, []⟩)
    (halted_final (fun _ _ => 0) (chunkParams Chunk.c8) _ _)
    (construct_runs (fun _ _ => 0) (chunkParams Chunk.c8) ⟨none, none, []⟩)
    (halted_final (fun _ _ => 0) (chunkParams Chunk.c8) _ _)

/-- C8: `construct` always runs to completion: from any scene state the
straight-line step semantics reaches, without branching or looping, the final
configuration after issuing exactly its fixed sequence of eight calls, and no
further step is possible there. -/
theorem construct_total (env : String → ℕ → ℚ) (p : ChunkParams)
    (s : SceneState) :
    Steps env p (initConfig s) (finalConfig env p s) ∧
      Halted env p (finalConfig env p s) ∧
      (finalConfig env p s).trace = constructEvents p ∧
      (finalConfig env p s).trace.length = 8 :=
  ⟨construct_runs env p s, halted_final env p _ _, rfl, rfl⟩

/-- C9: in every chunk, each `play` targets the title mobject only and the
body mobject is never itself played; run from a fresh screen, after the first
seven calls exactly the title is displayed, and the final `FadeOut` leaves
nothing on screen. -/
theorem plays_target_title_only (c : Chunk) (env : String → ℕ → ℚ)
    (s : SceneState) (h : s.onScreen = []) :
    (∀ e ∈ chunkEvents c,
        e.playTarget = none ∨ e.playTarget = some MRef.title) ∧
      (∀ e ∈ chunkEvents c, ¬ e.playTarget = some MRef.content) ∧
      (stateAt env s (chunkEvents c) 7).onScreen = [MRef.title] ∧
      (stateAt env s (chunkEvents c) 8).onScreen = [] := by
  obtain ⟨tObj, cObj, os⟩ := s
  simp only at h
  subst h
  cases c <;> exact ⟨by decide, by decide, rfl, rfl⟩

/-- Witness for C9: chunk 8's `construct` run from the fresh scene state. -/
theorem plays_target_title_only_witness :
    (∀ e ∈ chunkEvents Chunk.c8,
        e.playTarget = none ∨ e.playTarget = some MRef.title) ∧
      (∀ e ∈ chunkEvents Chunk.c8, ¬ e.playTarget = some MRef.content) ∧
      (stateAt (fun _ _ => 0) ⟨none, none, []⟩ (chunkEvents Chunk.c8)
          7).onScreen = [MRef.title] ∧
      (stateAt (fun _ _ => 0) ⟨none, none, []⟩ (chunkEvents Chunk.c8)
          8).onScreen = [] :=
  plays_target_title_only Chunk.c8 (fun _ _ => 0) ⟨none, none, []⟩ rfl

/-- C10: across the four chunks every non-string literal is identical — title
font size 40 and color BLUE, body font size 24 and color WHITE, fit width 11,
timings 1.5, 0.5, 1, 2, 0.5 — and the parameter records of any two chunks
agree once their two string fields are erased. -/
theorem nonstring_literals_uniform :
    (∀ c : Chunk,
        (chunkParams c).titleFontSize = 40 ∧
          (chunkParams c).titleColor = .BLUE ∧
          (chunkParams c).bodyFontSize = 24 ∧
          (chunkParams c).bodyColor = .WHITE ∧
          (chunkParams c).fitWidth = 11 ∧
          (chunkParams c).writeTime = 3/2 ∧
          (chunkParams c).holdTime1 = 1/2 ∧
          (chunkParams c).transformTime = 1 ∧
          (chunkParams c).holdTime2 = 2 ∧
          (chunkParams c).fadeTime = 1/2) ∧
      ∀ c cc : Chunk,
        { chunkParams c with titleText := "", bodyText := "" } =
          { chunkParams cc with titleText := "", bodyText := "" } := by
  constructor
  · intro c
    cases c <;> exact ⟨rfl, rfl, rfl, rfl, rfl, rfl, rfl, rfl, rfl, rfl⟩
  · intro c cc
    cases c <;> cases cc <;> rfl

end Vio
